import Mathlib

/-!
Verification of the MusicKit developer-token generator script
(apps/ios/generate_musickit_token.py).

The script is a linear one-shot program: read a private key file from a
fixed path, build a JWT header and payload, sign with ES256 via PyJWT,
print the token and guidance, and exit.  We embed it as a pure function
`run : Env → RunResult` where `Env` packages the ambient world the script
consults (home directory, file-system read, current time, the ES256
signing primitive) and `RunResult` records everything observable: the
lines printed to standard output, the exit code, the emitted token, and
an effect trace (files opened for reading, files written, network calls,
signing attempts, uncaught exceptions).

Modelling choices, stated once:

* Time.  `datetime.datetime.utcnow()` is captured as an integer count of
  microseconds since the Unix epoch (`Env.now_us`).  The naive datetime
  carries no timezone, and `datetime.timestamp()` interprets a naive
  value as local time: it converts to epoch seconds by subtracting the
  local UTC offset in effect at that datetime.  We model the offset as a
  function `Env.tzoff : Int → Int` of the naive datetime, because the
  script performs two such conversions 180 days apart (`now` and
  `expiration`) and the offsets in effect at the two datetimes differ
  when the window straddles a daylight-saving transition.  Python
  `int()` on the resulting float truncates toward zero, which is
  `Int.tdiv`; at the microsecond granularity used by `datetime`, the
  double-precision float returned by `timestamp()` never rounds across
  an integer-second boundary, so the integer model is exact.

* Signing.  `jwt.encode` (PyJWT) serialises header and payload as
  compact JSON, base64url-encodes each (padding stripped), signs the
  dot-joined signing input with the key, and appends the base64url
  signature.  The JSON serialisation and base64url coding are embedded
  concretely below; the ES256 signature itself is the cryptographic
  primitive, supplied by the environment as
  `Env.sign : key → message → Except errMsg signatureBytes`, where an
  `error` result stands for any exception raised inside the `try` block
  (malformed key, missing cryptography library, unsupported algorithm).

* Output.  Each Python `print(s)` call is recorded as the string `s`
  (one list element per call; `print` itself appends the newline).
-/

/-- Fixed issuer identifier, line 12 of the script. -/
def TEAM_ID : String := "Y23RJZMV5M"

/-- Fixed key identifier, line 13 of the script. -/
def KEY_ID : String := "R4WYDP8D72"

/-- Line 14: `os.path.expanduser("~/.apple-keys/AuthKey_R4WYDP8D72.p8")`.
`expanduser` replaces the leading tilde with the home directory. -/
def PRIVATE_KEY_PATH (home : String) : String :=
  home ++ "/.apple-keys/AuthKey_R4WYDP8D72.p8"

/-- Outcome of `open(path).read()`: the contents, or the exception the
open raises.  `fileNotFound` is `FileNotFoundError`; `other` is any
different `OSError` (permission denied, path is a directory, ...). -/
inductive PyExc where
  | fileNotFound : PyExc
  | other : String → PyExc
deriving DecidableEq

/-- The ambient world the script consults.  There is deliberately no
argv and no environment-variable map here: the script reads neither. -/
structure Env where
  /-- Home directory substituted by `os.path.expanduser`. -/
  home : String
  /-- File-system read: contents of the file at a path, or the exception. -/
  readFile : String → Except PyExc String
  /-- ES256 signing primitive behind `jwt.encode`: key, then signing
  input; `error e` stands for an exception with message `e`. -/
  sign : String → String → Except String (List Nat)
  /-- Value of `datetime.datetime.utcnow()` in microseconds since the epoch. -/
  now_us : Int
  /-- Local UTC offset in microseconds in effect at a given naive
  datetime: the offset `datetime.timestamp()` subtracts when it
  interprets that naive value as local time.  On a host with daylight
  saving this function is not constant. -/
  tzoff : Int → Int

/-- Lines 26-28: the JWT header dict. -/
structure Headers where
  alg : String
  kid : String
deriving DecidableEq

/-- Lines 35-39: the JWT payload dict. -/
structure Payload where
  iss : String
  iat : Int
  exp : Int
deriving DecidableEq

/-- Python `int()` applied to a float count of seconds held as integer
microseconds: truncation toward zero. -/
def pyIntSeconds (us : Int) : Int := Int.tdiv us 1000000

/-- 180 days in microseconds: `datetime.timedelta(days=180)`. -/
def DELTA_180D_US : Int := 15552000 * 1000000

/-- Model of `datetime.timestamp()` on a naive datetime: the naive value
is interpreted as local time, subtracting the local UTC offset in
effect at that datetime. -/
def timestampUs (tz : Int → Int) (dt_us : Int) : Int := dt_us - tz dt_us

/-- Lines 31-39: `now` is captured once, `expiration = now + 180 days`,
and the payload is built from two separate `.timestamp()` conversions,
one at `now` and one at `expiration`; each conversion uses the local
UTC offset in effect at its own datetime. -/
def mkPayload (tz : Int → Int) (now_us : Int) : Payload :=
  let expiration_us := now_us + DELTA_180D_US
  { iss := TEAM_ID
    iat := pyIntSeconds (timestampUs tz now_us)
    exp := pyIntSeconds (timestampUs tz expiration_us) }

/-- Lines 26-28: the header dict passed to `jwt.encode`. -/
def headers : Headers := { alg := "ES256", kid := KEY_ID }

/-! ### Base64url (RFC 4648 URL-safe alphabet, padding stripped)

PyJWT encodes each JWT segment with `base64.urlsafe_b64encode` and
strips the `=` padding.  Bytes are modelled as `Nat` values below 256. -/

/-- The 64-character base64url alphabet. -/
def b64alpha : List Char :=
  ("ABCDEFGHIJKLMNOPQRSTUVWXYZabcdefghijklmnopqrstuvwxyz0123456789-_").data

/-- Character for a 6-bit group. -/
def tb (n : Nat) : Char := b64alpha.getD n 'A'

/-- Index of a base64url character in the alphabet. -/
def idx (c : Char) : Nat := b64alpha.indexOf c

/-- Base64url-encode a byte list, no padding. -/
def b64encode : List Nat → List Char
  | [] => []
  | [a] => [tb (a / 4), tb (a % 4 * 16)]
  | [a, b] => [tb (a / 4), tb (a % 4 * 16 + b / 16), tb (b % 16 * 4)]
  | a :: b :: c :: rest =>
      tb (a / 4) :: tb (a % 4 * 16 + b / 16) :: tb (b % 16 * 4 + c / 64) ::
        tb (c % 64) :: b64encode rest

/-- Base64url-decode a character list, no padding.  Total: inputs that
are not valid encodings get a junk value. -/
def b64decode : List Char → List Nat
  | [] => []
  | [_] => []
  | [w, x] => [idx w * 4 + idx x / 16]
  | [w, x, y] => [idx w * 4 + idx x / 16, idx x % 16 * 16 + idx y / 4]
  | w :: x :: y :: z :: rest =>
      (idx w * 4 + idx x / 16) :: (idx x % 16 * 16 + idx y / 4) ::
        (idx y % 4 * 64 + idx z) :: b64decode rest

/-- String wrapper for the encoder. -/
def b64s (l : List Nat) : String := String.mk (b64encode l)

/-- UTF-8 bytes of a string, as `Nat` values (what `str.encode("utf-8")`
produces inside PyJWT). -/
def utf8Bytes (s : String) : List Nat :=
  s.data.flatMap (fun c => (String.utf8EncodeChar c).map UInt8.toNat)

/-- Compact JSON of the final header.  PyJWT starts from a dict with
`typ` and `alg` and merges the caller headers, so the serialised order
is typ, alg, kid, with `json.dumps(..., separators=(",", ":"))`. -/
def headerJsonOf (h : Headers) : String :=
  "\x7b\"typ\":\"JWT\",\"alg\":\"" ++ h.alg ++ "\",\"kid\":\"" ++ h.kid ++ "\"\x7d"

/-- Compact JSON of the payload, insertion order iss, iat, exp. -/
def payloadJson (p : Payload) : String :=
  "\x7b\"iss\":\"" ++ p.iss ++ "\",\"iat\":" ++ toString p.iat ++
    ",\"exp\":" ++ toString p.exp ++ "\x7d"

/-- The JWT signing input: dot-joined base64url header and payload. -/
def signingInputOf (h : Headers) (p : Payload) : String :=
  b64s (utf8Bytes (headerJsonOf h)) ++ "." ++ b64s (utf8Bytes (payloadJson p))

/-- Line 43: `jwt.encode(payload, private_key, algorithm="ES256",
headers=headers)`.  An `error` result is the exception caught by the
`except` clause on line 57. -/
def jwtEncode (p : Payload) (key : String) (h : Headers)
    (sign : String → String → Except String (List Nat)) : Except String String :=
  match sign key (signingInputOf h p) with
  | .error e => .error e
  | .ok sig => .ok (signingInputOf h p ++ "." ++ b64s sig)

/-! ### Printed text -/

/-- The banner `"=" * 80`. -/
def eq80 : String := String.mk (List.replicate 80 '=')

/-- Zero-pad to two digits. -/
def pad2 (n : Nat) : String := if n < 10 then "0" ++ toString n else toString n

/-- Zero-pad a year to four digits (years in range 1000-9999 need none). -/
def pad4 (y : Int) : String :=
  if y < 0 then toString y
  else if y < 10 then "000" ++ toString y
  else if y < 100 then "00" ++ toString y
  else if y < 1000 then "0" ++ toString y
  else toString y

/-- Proleptic Gregorian date from days since the epoch (the standard
civil-from-days computation used to model `datetime` formatting). -/
def civilFromDays (z0 : Int) : Int × Nat × Nat :=
  let z := z0 + 719468
  let era := Int.fdiv z 146097
  let doe := (Int.emod z 146097).toNat
  let yoe := (doe - doe / 1460 + doe / 36524 - doe / 146096) / 365
  let doy := doe - (365 * yoe + yoe / 4 - yoe / 100)
  let mp := (5 * doy + 2) / 153
  let d := doy - (153 * mp + 2) / 5 + 1
  let m := if mp < 10 then mp + 3 else mp - 9
  let y := (yoe : Int) + era * 400 + (if m ≤ 2 then 1 else 0)
  (y, m, d)

/-- Model of `expiration.strftime("%Y-%m-%d %H:%M:%S UTC")` on a naive datetime
held as microseconds since the epoch. -/
def strftimeLine (us : Int) : String :=
  let s := Int.fdiv us 1000000
  let days := Int.fdiv s 86400
  let sod := (Int.emod s 86400).toNat
  let ymd := civilFromDays days
  pad4 ymd.1 ++ "-" ++ pad2 ymd.2.1 ++ "-" ++ pad2 ymd.2.2 ++ " " ++
    pad2 (sod / 3600) ++ ":" ++ pad2 (sod % 3600 / 60) ++ ":" ++
    pad2 (sod % 60) ++ " UTC"

/-- Lines 45-54: the ten `print` calls of the success path, in order.
`expiration_us` is the naive expiration datetime in microseconds. -/
def successLines (token : String) (expiration_us : Int) : List String :=
  [ "✅ Apple Music Developer Token Generated Successfully!"
  , "\n" ++ eq80
  , "TOKEN (copy this to Config.swift):"
  , eq80
  , token
  , eq80
  , "\n📅 Valid until: " ++ strftimeLine expiration_us
  , "\n💡 Copy the token above and paste it into:"
  , "   apps/ios/phlock/phlock/Services/Config.swift"
  , "   Replace: static let appleMusicDeveloperToken = \"your-apple-music-developer-token\"" ]

/-- Lines 20-22: the two `print` calls of the missing-key path. -/
def keyNotFoundLines (path : String) : List String :=
  [ "❌ Error: Could not find private key at " ++ path
  , "Make sure the .p8 file is in the correct location." ]

/-- Lines 56-59: the three `print` calls of the signing-failure path. -/
def signFailLines (e : String) : List String :=
  [ "❌ Error generating token: " ++ e
  , "\n💡 Make sure you have PyJWT and cryptography installed:"
  , "   pip install pyjwt cryptography" ]

/-- Everything observable about one run: standard output (one element
per `print` call), exit code, the token value printed (if any), and the
effect trace.  `readPaths` lists each file opened for reading,
`writePaths` each file opened for writing, `netCalls` counts network
operations, `signCalls` counts invocations of the signing primitive,
and `uncaughtExc` is set when an exception escapes to the interpreter
(which then prints a traceback to standard error and exits with 1). -/
structure RunResult where
  stdout : List String
  exitCode : Nat
  emittedToken : Option String
  readPaths : List String
  writePaths : List String
  netCalls : Nat
  signCalls : Nat
  uncaughtExc : Option String
deriving DecidableEq

/-- The whole script, lines 12-60, as one pure function of the
environment. -/
def run (env : Env) : RunResult :=
  let path := PRIVATE_KEY_PATH env.home
  match env.readFile path with
  | .error .fileNotFound =>
      { stdout := keyNotFoundLines path
        exitCode := 1
        emittedToken := none
        readPaths := [path], writePaths := [], netCalls := 0
        signCalls := 0, uncaughtExc := none }
  | .error (.other msg) =>
      { stdout := []
        exitCode := 1
        emittedToken := none
        readPaths := [path], writePaths := [], netCalls := 0
        signCalls := 0, uncaughtExc := some msg }
  | .ok private_key =>
      let payload := mkPayload env.tzoff env.now_us
      match jwtEncode payload private_key headers env.sign with
      | .ok token =>
          { stdout := successLines token (env.now_us + DELTA_180D_US)
            exitCode := 0
            emittedToken := some token
            readPaths := [path], writePaths := [], netCalls := 0
            signCalls := 1, uncaughtExc := none }
      | .error e =>
          { stdout := signFailLines e
            exitCode := 1
            emittedToken := none
            readPaths := [path], writePaths := [], netCalls := 0
            signCalls := 1, uncaughtExc := none }

/-! ### Lemmas about the base64url coder -/

theorem b64alpha_length : b64alpha.length = 64 := by decide

theorem tb_mem_alpha : ∀ n, n < 64 → tb n ∈ b64alpha := by decide

theorem idx_tb : ∀ n, n < 64 → idx (tb n) = n := by decide

theorem dot_not_mem_alpha : ('.' : Char) ∉ b64alpha := by decide

theorem b64encode_mem_alpha (l : List Nat) (h : ∀ b ∈ l, b < 256) :
    ∀ c ∈ b64encode l, c ∈ b64alpha :=
  match l with
  | [] => by simp [b64encode]
  | [a] => by
      have ha : a < 256 := h a (by simp)
      intro ch hch
      simp [b64encode] at hch
      rcases hch with rfl | rfl
      · exact tb_mem_alpha _ (by omega)
      · exact tb_mem_alpha _ (by omega)
  | [a, b] => by
      have ha : a < 256 := h a (by simp)
      have hb : b < 256 := h b (by simp)
      intro ch hch
      simp [b64encode] at hch
      rcases hch with rfl | rfl | rfl
      · exact tb_mem_alpha _ (by omega)
      · exact tb_mem_alpha _ (by omega)
      · exact tb_mem_alpha _ (by omega)
  | a :: b :: c :: rest => by
      have ha : a < 256 := h a (by simp)
      have hb : b < 256 := h b (by simp)
      have hc : c < 256 := h c (by simp)
      have ih := b64encode_mem_alpha rest (fun x hx => h x (by simp [hx]))
      intro ch hch
      simp only [b64encode, List.mem_cons] at hch
      rcases hch with rfl | rfl | rfl | rfl | hch
      · exact tb_mem_alpha _ (by omega)
      · exact tb_mem_alpha _ (by omega)
      · exact tb_mem_alpha _ (by omega)
      · exact tb_mem_alpha _ (by omega)
      · exact ih ch hch

theorem b64decode_encode (l : List Nat) (h : ∀ b ∈ l, b < 256) :
    b64decode (b64encode l) = l :=
  match l with
  | [] => by simp [b64encode, b64decode]
  | [a] => by
      have ha : a < 256 := h a (by simp)
      simp only [b64encode, b64decode]
      rw [idx_tb _ (by omega), idx_tb _ (by omega)]
      simp only [List.cons.injEq, and_true]
      omega
  | [a, b] => by
      have ha : a < 256 := h a (by simp)
      have hb : b < 256 := h b (by simp)
      simp only [b64encode, b64decode]
      rw [idx_tb _ (by omega), idx_tb _ (by omega), idx_tb _ (by omega)]
      simp only [List.cons.injEq, and_true]
      constructor
      · omega
      · omega
  | a :: b :: c :: rest => by
      have ha : a < 256 := h a (by simp)
      have hb : b < 256 := h b (by simp)
      have hc : c < 256 := h c (by simp)
      have ih := b64decode_encode rest (fun x hx => h x (by simp [hx]))
      simp only [b64encode, b64decode]
      rw [idx_tb _ (by omega), idx_tb _ (by omega), idx_tb _ (by omega),
        idx_tb _ (by omega)]
      simp only [List.cons.injEq]
      refine ⟨by omega, by omega, by omega, ih⟩

theorem utf8Bytes_lt (s : String) : ∀ b ∈ utf8Bytes s, b < 256 := by
  intro b hb
  simp only [utf8Bytes, List.mem_flatMap, List.mem_map] at hb
  obtain ⟨c, _, u, _, rfl⟩ := hb
  exact u.val.isLt

/-! ### Splitting on the dot separator -/

/-- Model of splitting a character list at every dot, the list-level
counterpart of splitting a compact JWT into its segments. -/
def splitDot : List Char → List (List Char)
  | [] => [[]]
  | c :: rest =>
      if c = '.' then [] :: splitDot rest
      else
        match splitDot rest with
        | [] => [[c]]
        | p :: ps => (c :: p) :: ps

theorem splitDot_ne_nil (l : List Char) : splitDot l ≠ [] := by
  induction l with
  | nil => simp [splitDot]
  | cons c rest ih =>
      simp only [splitDot]
      by_cases hc : c = '.'
      · simp [hc]
      · simp only [if_neg hc]
        cases hrec : splitDot rest with
        | nil => simp
        | cons p ps => simp

theorem splitDot_no_dot (l : List Char) (h : '.' ∉ l) : splitDot l = [l] := by
  induction l with
  | nil => simp [splitDot]
  | cons c rest ih =>
      have hc : c ≠ '.' := by rintro rfl; exact h (by simp)
      have hrest : '.' ∉ rest := fun hm => h (by simp [hm])
      simp only [splitDot, if_neg hc, ih hrest]

theorem splitDot_append (xs ys : List Char) (h : '.' ∉ xs) :
    splitDot (xs ++ '.' :: ys) = xs :: splitDot ys := by
  induction xs with
  | nil => simp [splitDot]
  | cons c rest ih =>
      have hc : c ≠ '.' := by rintro rfl; exact h (by simp)
      have hrest : '.' ∉ rest := fun hm => h (by simp [hm])
      simp only [List.cons_append, splitDot, if_neg hc]
      have ih2 : splitDot (rest.append ('.' :: ys)) = rest :: splitDot ys :=
        ih hrest
      rw [ih2]

theorem b64encode_no_dot (l : List Nat) (h : ∀ b ∈ l, b < 256) :
    '.' ∉ b64encode l :=
  fun hm => dot_not_mem_alpha (b64encode_mem_alpha l h '.' hm)

theorem splitDot_three (A B C : List Char)
    (hA : '.' ∉ A) (hB : '.' ∉ B) (hC : '.' ∉ C) :
    splitDot (A ++ '.' :: (B ++ '.' :: C)) = [A, B, C] := by
  rw [splitDot_append _ _ hA, splitDot_append _ _ hB, splitDot_no_dot _ hC]

/-- Character data of a successfully produced token: header segment,
dot, payload segment, dot, signature segment. -/
theorem token_data (h : Headers) (p : Payload) (sig : List Nat) :
    (signingInputOf h p ++ "." ++ b64s sig).data =
      b64encode (utf8Bytes (headerJsonOf h)) ++ '.' ::
        (b64encode (utf8Bytes (payloadJson p)) ++ '.' :: b64encode sig) := by
  have hdot : ("." : String).data = ['.'] := rfl
  simp [signingInputOf, b64s, String.data_append, hdot]

/-- Reduction of `run` on the success path. -/
theorem run_success_eq (env : Env) (k : String) (sig : List Nat)
    (hread : env.readFile (PRIVATE_KEY_PATH env.home) = .ok k)
    (hsign : env.sign k
      (signingInputOf headers (mkPayload env.tzoff env.now_us)) = .ok sig) :
    run env =
      { stdout := successLines
          (signingInputOf headers (mkPayload env.tzoff env.now_us) ++
            "." ++ b64s sig) (env.now_us + DELTA_180D_US)
        exitCode := 0
        emittedToken := some (signingInputOf headers
          (mkPayload env.tzoff env.now_us) ++ "." ++ b64s sig)
        readPaths := [PRIVATE_KEY_PATH env.home], writePaths := [], netCalls := 0
        signCalls := 1, uncaughtExc := none } := by
  simp only [run, jwtEncode, hread, hsign]

/-! ### Claims -/

/-- Local UTC offset of the America/New_York timezone around the spring
2026 daylight-saving transition, in microseconds as a function of the
naive datetime: UTC-5 (standard time) before 2026-03-08 02:00 and UTC-4
(daylight time) from then on.  Only the one transition inside the
180-day window matters here. -/
def tzNewYork2026 (dt_us : Int) : Int :=
  if dt_us < 1772935200000000 then -18000000000 else -14400000000

/-- Environment for the C1 failing input: a host in the
America/New_York timezone where `utcnow()` returns the naive datetime
2026-01-15 12:00:00 (epoch microseconds 1768478400000000), so that
`expiration` falls on 2026-07-14, on the other side of the
daylight-saving transition; the key file and the signer succeed. -/
def envDST : Env where
  home := "/home/u"
  readFile := fun _ => .ok "PEMKEY"
  sign := fun _ _ => .ok [1, 2, 3, 4]
  now_us := 1768478400000000
  tzoff := tzNewYork2026

/-- C1 (code bug): the claim says the payload always has
exp - iat = 15552000 exactly, both fields derived from one captured
time value.  The code captures `now` once, but converts `now` and
`now + 180 days` to epoch seconds with two separate `.timestamp()`
calls on naive datetimes, and `.timestamp()` applies the local UTC
offset in effect at each datetime.  At the concrete failing input
(America/New_York, `utcnow()` = 2026-01-15 12:00:00) the 180-day window
crosses the spring daylight-saving transition, the two conversions use
offsets differing by 3600 seconds, and the run emits a token whose
payload has exp - iat = 15548400, not 15552000. -/
theorem claim_C1 :
    (run envDST).emittedToken =
      some (signingInputOf headers (mkPayload envDST.tzoff envDST.now_us) ++
        "." ++ b64s [1, 2, 3, 4]) ∧
    (mkPayload envDST.tzoff envDST.now_us).exp -
      (mkPayload envDST.tzoff envDST.now_us).iat = 15548400 ∧
    (mkPayload envDST.tzoff envDST.now_us).exp -
      (mkPayload envDST.tzoff envDST.now_us).iat ≠ 15552000 := by
  refine ⟨?_, by decide, by decide⟩
  rw [run_success_eq envDST "PEMKEY" [1, 2, 3, 4] rfl rfl]

/-- C2: when the key file is absent, the run prints the two diagnostic
lines (the first names the expected path), exits with status 1, emits no
token, and never invokes the signing primitive. -/
theorem claim_C2 (env : Env)
    (h : env.readFile (PRIVATE_KEY_PATH env.home) = .error .fileNotFound) :
    (run env).stdout = keyNotFoundLines (PRIVATE_KEY_PATH env.home) ∧
    (run env).stdout.head? =
      some ("❌ Error: Could not find private key at " ++
        PRIVATE_KEY_PATH env.home) ∧
    (run env).exitCode = 1 ∧
    (run env).emittedToken = none ∧
    (run env).signCalls = 0 := by
  simp [run, h, keyNotFoundLines]

/-- C3: when signing raises (any exception from `jwt.encode`), the run
prints the diagnostic carrying the underlying message followed by the
remediation hint, exits with status 1, and emits no token. -/
theorem claim_C3 (env : Env) (k e : String)
    (hread : env.readFile (PRIVATE_KEY_PATH env.home) = .ok k)
    (hsign : env.sign k
      (signingInputOf headers (mkPayload env.tzoff env.now_us)) =
        .error e) :
    (run env).stdout = signFailLines e ∧
    (run env).stdout.head? = some ("❌ Error generating token: " ++ e) ∧
    (run env).exitCode = 1 ∧
    (run env).emittedToken = none := by
  simp [run, jwtEncode, hread, hsign, signFailLines]

/-- C9: any file-open failure other than file-not-found escapes the
`except FileNotFoundError` handler: nothing is printed to standard
output, the KeyNotFound diagnostic does not appear, no token is
emitted, signing is never attempted, and the interpreter exits 1 with
the exception uncaught. -/
theorem claim_C9 (env : Env) (msg : String)
    (h : env.readFile (PRIVATE_KEY_PATH env.home) = .error (.other msg)) :
    (run env).uncaughtExc = some msg ∧
    (run env).stdout = [] ∧
    (run env).emittedToken = none ∧
    (run env).signCalls = 0 ∧
    (run env).exitCode = 1 := by
  simp [run, h]

/-- C6: the private key is read from exactly one fixed path, the home
directory joined with `.apple-keys/AuthKey_<KEY_ID>.p8` for the fixed
key identifier; the model environment carries no argv, environment
variables or config files, so nothing else influences the path. -/
theorem claim_C6 (env : Env) :
    PRIVATE_KEY_PATH env.home =
      env.home ++ "/.apple-keys/AuthKey_" ++ KEY_ID ++ ".p8" ∧
    (run env).readPaths = [PRIVATE_KEY_PATH env.home] := by
  constructor
  · have hlit : ("/.apple-keys/AuthKey_R4WYDP8D72.p8" : String) =
        "/.apple-keys/AuthKey_" ++ KEY_ID ++ ".p8" := rfl
    rw [PRIVATE_KEY_PATH, hlit, ← String.append_assoc, ← String.append_assoc]
  · rcases h : env.readFile (PRIVATE_KEY_PATH env.home) with exc | k
    · cases exc <;> simp [run, h]
    · rcases hj : jwtEncode (mkPayload env.tzoff env.now_us) k headers
        env.sign with e | t <;> simp [run, h, hj]

/-- C7: frame of every invocation: exactly one file-open for reading (at
the fixed path), no file writes, no network calls, at most one signing
attempt, at most one token, and a non-zero exit always means no token
was emitted. -/
theorem claim_C7 (env : Env) :
    (run env).readPaths = [PRIVATE_KEY_PATH env.home] ∧
    (run env).readPaths.length = 1 ∧
    (run env).writePaths = [] ∧
    (run env).netCalls = 0 ∧
    (run env).signCalls ≤ 1 ∧
    (run env).emittedToken.toList.length ≤ 1 ∧
    ((run env).exitCode ≠ 0 → (run env).emittedToken = none) := by
  rcases h : env.readFile (PRIVATE_KEY_PATH env.home) with exc | k
  · cases exc <;> simp [run, h]
  · rcases hj : jwtEncode (mkPayload env.tzoff env.now_us) k headers
      env.sign with e | t <;> simp [run, h, hj]

/-- C4: with a key the signer accepts, the emitted token decodes to a
header whose alg field is the string ES256 and whose kid field is
R4WYDP8D72, and to a payload whose iss field is Y23RJZMV5M: the first
segment base64url-decodes to the header JSON (shown literally) and the
second to the payload JSON built from `mkPayload`, whose iss is the
fixed team identifier. -/
theorem claim_C4 (env : Env) (k : String) (sig : List Nat)
    (hread : env.readFile (PRIVATE_KEY_PATH env.home) = .ok k)
    (hsign : env.sign k
      (signingInputOf headers (mkPayload env.tzoff env.now_us)) =
        .ok sig)
    (hb : ∀ b ∈ sig, b < 256) :
    ∃ t A B C, (run env).emittedToken = some t ∧
      splitDot t.data = [A, B, C] ∧
      b64decode A = utf8Bytes (headerJsonOf headers) ∧
      b64decode B =
        utf8Bytes (payloadJson (mkPayload env.tzoff env.now_us)) ∧
      headerJsonOf headers =
        "\x7b\"typ\":\"JWT\",\"alg\":\"ES256\",\"kid\":\"R4WYDP8D72\"\x7d" ∧
      headers.alg = "ES256" ∧
      headers.kid = "R4WYDP8D72" ∧
      (mkPayload env.tzoff env.now_us).iss = "Y23RJZMV5M" := by
  have hrun := run_success_eq env k sig hread hsign
  refine ⟨signingInputOf headers (mkPayload env.tzoff env.now_us) ++
      "." ++ b64s sig,
    b64encode (utf8Bytes (headerJsonOf headers)),
    b64encode (utf8Bytes (payloadJson (mkPayload env.tzoff env.now_us))),
    b64encode sig, ?_, ?_, ?_, ?_, rfl, rfl, rfl, rfl⟩
  · rw [hrun]
  · rw [token_data]
    exact splitDot_three _ _ _
      (b64encode_no_dot _ (utf8Bytes_lt _))
      (b64encode_no_dot _ (utf8Bytes_lt _))
      (b64encode_no_dot _ hb)
  · exact b64decode_encode _ (utf8Bytes_lt _)
  · exact b64decode_encode _ (utf8Bytes_lt _)

/-- C5: on the success path the run exits 0 and standard output is
exactly the ten print calls of `successLines` in order (success notice,
banner, token caption, banner, the token on its own line, banner, the
formatted expiration line, and the three guidance lines naming the
destination file and the placeholder); the token line is the emitted
token; both failure paths exit 1. -/
theorem claim_C5 (env : Env) (k : String) (sig : List Nat)
    (hread : env.readFile (PRIVATE_KEY_PATH env.home) = .ok k)
    (hsign : env.sign k
      (signingInputOf headers (mkPayload env.tzoff env.now_us)) =
        .ok sig) :
    (run env).exitCode = 0 ∧
    (run env).stdout = successLines
      (signingInputOf headers (mkPayload env.tzoff env.now_us) ++
        "." ++ b64s sig) (env.now_us + DELTA_180D_US) ∧
    (run env).stdout[4]? = (run env).emittedToken ∧
    (∀ env2 : Env,
      env2.readFile (PRIVATE_KEY_PATH env2.home) = .error .fileNotFound →
      (run env2).exitCode = 1) ∧
    (∀ (env2 : Env) (k2 e2 : String),
      env2.readFile (PRIVATE_KEY_PATH env2.home) = .ok k2 →
      env2.sign k2 (signingInputOf headers
        (mkPayload env2.tzoff env2.now_us)) = .error e2 →
      (run env2).exitCode = 1) := by
  have hrun := run_success_eq env k sig hread hsign
  refine ⟨by rw [hrun], by rw [hrun], by rw [hrun]; rfl, ?_, ?_⟩
  · intro env2 h2
    simp [run, h2]
  · intro env2 k2 e2 h2 hs2
    simp [run, jwtEncode, h2, hs2]

/-- C8: every token emitted on the success path splits at the dots into
exactly three segments, and every character of every segment belongs to
the base64url alphabet. -/
theorem claim_C8 (env : Env) (k : String) (sig : List Nat)
    (hread : env.readFile (PRIVATE_KEY_PATH env.home) = .ok k)
    (hsign : env.sign k
      (signingInputOf headers (mkPayload env.tzoff env.now_us)) =
        .ok sig)
    (hb : ∀ b ∈ sig, b < 256) :
    ∃ t, (run env).emittedToken = some t ∧
      (splitDot t.data).length = 3 ∧
      ∀ part ∈ splitDot t.data, ∀ c ∈ part, c ∈ b64alpha := by
  have hrun := run_success_eq env k sig hread hsign
  have hsplit : splitDot ((signingInputOf headers
      (mkPayload env.tzoff env.now_us) ++ "." ++ b64s sig)).data =
      [b64encode (utf8Bytes (headerJsonOf headers)),
       b64encode (utf8Bytes (payloadJson
         (mkPayload env.tzoff env.now_us))),
       b64encode sig] := by
    rw [token_data]
    exact splitDot_three _ _ _
      (b64encode_no_dot _ (utf8Bytes_lt _))
      (b64encode_no_dot _ (utf8Bytes_lt _))
      (b64encode_no_dot _ hb)
  refine ⟨signingInputOf headers (mkPayload env.tzoff env.now_us) ++
      "." ++ b64s sig, by rw [hrun], by rw [hsplit]; rfl, ?_⟩
  rw [hsplit]
  intro part hp c hc
  simp only [List.mem_cons, List.not_mem_nil, or_false] at hp
  rcases hp with rfl | rfl | rfl
  · exact b64encode_mem_alpha _ (utf8Bytes_lt _) c hc
  · exact b64encode_mem_alpha _ (utf8Bytes_lt _) c hc
  · exact b64encode_mem_alpha _ hb c hc

/-- C10: the private key material influences the observable run (all
printed lines included) only through the output of the signing
primitive: two runs with the same home, clock and offset, whose keys
may differ arbitrarily but whose signer returns the same result on
them, are observationally identical.  In particular no line of standard
output carries the key itself. -/
theorem claim_C10 (e1 e2 : Env) (k1 k2 : String)
    (hhome : e1.home = e2.home) (hnow : e1.now_us = e2.now_us)
    (htz : e1.tzoff = e2.tzoff)
    (h1 : e1.readFile (PRIVATE_KEY_PATH e1.home) = .ok k1)
    (h2 : e2.readFile (PRIVATE_KEY_PATH e2.home) = .ok k2)
    (hs : ∀ m, e1.sign k1 m = e2.sign k2 m) :
    run e1 = run e2 := by
  rw [hhome] at h1
  rcases hsig : e1.sign k1 (signingInputOf headers
      (mkPayload e2.tzoff e2.now_us)) with e | sig
  · have hsig2 : e2.sign k2 (signingInputOf headers
        (mkPayload e2.tzoff e2.now_us)) = .error e :=
      (hs _).symm.trans hsig
    simp [run, jwtEncode, h1, h2, hsig, hsig2, hhome, hnow, htz]
  · have hsig2 : e2.sign k2 (signingInputOf headers
        (mkPayload e2.tzoff e2.now_us)) = .ok sig :=
      (hs _).symm.trans hsig
    simp [run, jwtEncode, h1, h2, hsig, hsig2, hhome, hnow, htz]

/-! ### Concrete environments for evaluation -/

/-- Environment in which everything succeeds. -/
def envOk : Env where
  home := "/home/u"
  readFile := fun _ => .ok "PEMKEY"
  sign := fun _ _ => .ok [1, 2, 3, 4]
  now_us := 1760000000123456
  tzoff := fun _ => 0

/-- Same world as `envOk` except the key file holds different key
material; the signer returns the same signature on it. -/
def envOk2 : Env where
  home := "/home/u"
  readFile := fun _ => .ok "PEMKEY-OTHER"
  sign := fun _ _ => .ok [1, 2, 3, 4]
  now_us := 1760000000123456
  tzoff := fun _ => 0

/-- Environment where the key file is absent. -/
def envMissing : Env where
  home := "/home/u"
  readFile := fun _ => .error .fileNotFound
  sign := fun _ _ => .ok []
  now_us := 1760000000123456
  tzoff := fun _ => 0

/-- Environment where opening the key file raises a non-FileNotFound
exception. -/
def envDenied : Env where
  home := "/home/u"
  readFile := fun _ => .error (.other "PermissionDenied")
  sign := fun _ _ => .ok []
  now_us := 1760000000123456
  tzoff := fun _ => 0

/-- Environment where the key file holds garbage and signing raises. -/
def envBadKey : Env where
  home := "/home/u"
  readFile := fun _ => .ok "not a pem key"
  sign := fun _ _ => .error "Could not deserialize key data"
  now_us := 1760000000123456
  tzoff := fun _ => 0

/-! ### Witnesses -/

/-- Witness for C2 in the missing-key environment. -/
theorem claim_C2_wit :
    (run envMissing).exitCode = 1 ∧
    (run envMissing).emittedToken = none ∧
    (run envMissing).signCalls = 0 :=
  ⟨(claim_C2 envMissing rfl).2.2.1, (claim_C2 envMissing rfl).2.2.2.1,
    (claim_C2 envMissing rfl).2.2.2.2⟩

/-- Witness for C3 in the bad-key environment. -/
theorem claim_C3_wit :
    (run envBadKey).exitCode = 1 ∧ (run envBadKey).emittedToken = none :=
  ⟨(claim_C3 envBadKey "not a pem key" "Could not deserialize key data"
      rfl rfl).2.2.1,
    (claim_C3 envBadKey "not a pem key" "Could not deserialize key data"
      rfl rfl).2.2.2⟩

/-- Witness for C4 in the all-success environment. -/
theorem claim_C4_wit :
    ∃ t A B C, (run envOk).emittedToken = some t ∧
      splitDot t.data = [A, B, C] ∧
      b64decode A = utf8Bytes (headerJsonOf headers) ∧
      b64decode B =
        utf8Bytes (payloadJson (mkPayload envOk.tzoff envOk.now_us)) ∧
      headerJsonOf headers =
        "\x7b\"typ\":\"JWT\",\"alg\":\"ES256\",\"kid\":\"R4WYDP8D72\"\x7d" ∧
      headers.alg = "ES256" ∧
      headers.kid = "R4WYDP8D72" ∧
      (mkPayload envOk.tzoff envOk.now_us).iss = "Y23RJZMV5M" :=
  claim_C4 envOk "PEMKEY" [1, 2, 3, 4] rfl rfl (by decide)

/-- Witness for C5 in the all-success environment. -/
theorem claim_C5_wit :
    (run envOk).exitCode = 0 ∧
    (run envOk).stdout[4]? = (run envOk).emittedToken :=
  ⟨(claim_C5 envOk "PEMKEY" [1, 2, 3, 4] rfl rfl).1,
    (claim_C5 envOk "PEMKEY" [1, 2, 3, 4] rfl rfl).2.2.1⟩

/-- Witness for C6 in the all-success environment. -/
theorem claim_C6_wit :
    PRIVATE_KEY_PATH envOk.home =
      envOk.home ++ "/.apple-keys/AuthKey_" ++ KEY_ID ++ ".p8" ∧
    (run envOk).readPaths = [PRIVATE_KEY_PATH envOk.home] :=
  claim_C6 envOk

/-- Witness for C7 in the all-success environment. -/
theorem claim_C7_wit :
    (run envOk).writePaths = [] ∧ (run envOk).netCalls = 0 ∧
    (run envOk).signCalls ≤ 1 :=
  ⟨(claim_C7 envOk).2.2.1, (claim_C7 envOk).2.2.2.1,
    (claim_C7 envOk).2.2.2.2.1⟩

/-- Witness for C8 in the all-success environment. -/
theorem claim_C8_wit :
    ∃ t, (run envOk).emittedToken = some t ∧
      (splitDot t.data).length = 3 ∧
      ∀ part ∈ splitDot t.data, ∀ c ∈ part, c ∈ b64alpha :=
  claim_C8 envOk "PEMKEY" [1, 2, 3, 4] rfl rfl (by decide)

/-- Witness for C9 in the permission-denied environment. -/
theorem claim_C9_wit :
    (run envDenied).stdout = [] ∧ (run envDenied).exitCode = 1 :=
  ⟨(claim_C9 envDenied "PermissionDenied" rfl).2.1,
    (claim_C9 envDenied "PermissionDenied" rfl).2.2.2.2⟩

/-- Witness for C10: two concrete runs differing only in the key
material are observationally identical. -/
theorem claim_C10_wit : run envOk = run envOk2 :=
  claim_C10 envOk envOk2 "PEMKEY" "PEMKEY-OTHER" rfl rfl rfl rfl rfl
    (fun _ => rfl)
